import Mathlib

/-!
# Verification of the huelib bridge client core

A shallow embedding of the huelib repository's response-normalization,
modifier-serialization and resource-façade logic, together with theorems
checking the specification's claims against it.

Strings are embedded as `List Char` (written `Str`); JSON values as the
inductive `Json`; fallible Rust code as `Except`-valued functions.
-/

namespace Huelib

/-- Strings of the embedded program, as lists of characters. -/
abbrev Str := List Char

/-- Carrier for IEEE-754 single-precision payloads.  No floating-point
arithmetic occurs in any verified path: values of this type are only carried
through (de)serialization unchanged, so the payload is kept uninterpreted as
an integer-coded numeric value. -/
structure F32 where
  val : Int
deriving DecidableEq, Repr

/-- JSON values (the embedding of `serde_json::Value`).  Objects are
association lists of key/value pairs; numeric leaves carry integers (the
numeric payloads exercised by the claims are all integral). -/
inductive Json where
  | null : Json
  | bool (b : Bool) : Json
  | int (n : Int) : Json
  | str (s : Str) : Json
  | arr (xs : List Json) : Json
  | obj (fields : List (Str × Json)) : Json
deriving Repr

/-- Decode-level failures (the embedding of serde decode errors): the payload
did not match the expected shape for the requested type. -/
inductive DecodeError where
  | shapeMismatch : DecodeError
  | missingField (name : Str) : DecodeError
  | badFormat : DecodeError
  | invalidKind (kind : Str) : DecodeError
deriving DecidableEq, Repr

/-- Modelled from the spec: the error payload of a Response Record
(`huelib::response::Error`, not under src/): "a numeric error type, the
JSON-pointer-like path, and a human-readable description". -/
structure BridgeError where
  kind : Int
  address : Str
  description : Str
deriving DecidableEq, Repr

/-- Modelled from the spec: one Response Record
(`huelib::response::Response<T>`, not under src/): "either a success payload
... or an error payload". -/
inductive Response (α : Type) where
  | success (v : α) : Response α
  | error (e : BridgeError) : Response α
deriving DecidableEq, Repr

/-- Modelled from the spec: `Response::into_result` (not under src/) turns a
success record into `Ok` of its payload and an error record into the typed
bridge error. -/
def Response.intoResult {α : Type} : Response α → Except BridgeError α
  | .success v => .ok v
  | .error e => .error e

/-- Modelled from the spec: the crate-level discriminated failure value
(`huelib::Error`, not under src/), restricted to the post-transport kinds the
claims concern: a decode error is distinct from a bridge error. -/
inductive HueError where
  | decode (e : DecodeError) : HueError
  | bridge (e : BridgeError) : HueError
deriving DecidableEq, Repr

/-- Lift a decode result into the crate-level error union (the `?` conversion
from a serde error into the crate error). -/
def liftDecode {α : Type} : Except DecodeError α → Except HueError α
  | .ok v => .ok v
  | .error e => .error (.decode e)

/-- Look a field up in a JSON object body (association-list lookup). -/
def getField (fields : List (Str × Json)) (k : Str) : Option Json :=
  fields.lookup k

/-- Decode a JSON value as a string. -/
def asStr : Json → Except DecodeError Str
  | .str s => .ok s
  | _ => .error .shapeMismatch

/-- Decode a JSON value as a boolean. -/
def asBool : Json → Except DecodeError Bool
  | .bool b => .ok b
  | _ => .error .shapeMismatch

/-- Decode a JSON value as an integer. -/
def asInt : Json → Except DecodeError Int
  | .int n => .ok n
  | _ => .error .shapeMismatch

/-- Modelled from the spec: decoding one Response Record: "an array of
single-key objects tagged success or error"; the error payload decodes from
its `type`/`address`/`description` fields (spec example:
`\x7b"error": \x7b"type": 3, "address": "/lights/1", "description": "not found"\x7d\x7d`). -/
def decodeBridgeError (j : Json) : Except DecodeError BridgeError :=
  match j with
  | .obj fields =>
    match getField fields "type".toList with
    | none => .error (.missingField "type".toList)
    | some tj =>
      match asInt tj with
      | .error e => .error e
      | .ok t =>
        match getField fields "address".toList with
        | none => .error (.missingField "address".toList)
        | some aj =>
          match asStr aj with
          | .error e => .error e
          | .ok a =>
            match getField fields "description".toList with
            | none => .error (.missingField "description".toList)
            | some dj =>
              match asStr dj with
              | .error e => .error e
              | .ok d => .ok { kind := t, address := a, description := d }
  | _ => .error .shapeMismatch

/-- Modelled from the spec: decoding one outcome record
(`Response<JsonValue>`): a single-key object whose key is the tag. -/
def decodeResponseRecord (j : Json) : Except DecodeError (Response Json) :=
  match j with
  | .obj [(k, v)] =>
    if k = "success".toList then .ok (.success v)
    else if k = "error".toList then
      match decodeBridgeError v with
      | .ok e => .ok (.error e)
      | .error e => .error e
    else .error .shapeMismatch
  | _ => .error .shapeMismatch

/-- The speculative decode `serde_json::from_value::<Vec<Response<JsonValue>>>`:
the payload must be an array and every element must decode as a Response
Record. -/
def decodeResponseVec (j : Json) : Except DecodeError (List (Response Json)) :=
  match j with
  | .arr xs => xs.mapM decodeResponseRecord
  | _ => .error .shapeMismatch

/-- The generic response normalizer `parse_response` (src/bridge/mod.rs,
lines 21-31): speculatively decode the payload as a vector of Response
Records; if that succeeds and the vector is non-empty, `pop` (the last
record) and fail on its error; otherwise deserialize the original payload
into the requested target via the supplied decoder. -/
def parse_response {T : Type} (dec : Json → Except DecodeError T)
    (response : Json) : Except HueError T :=
  match decodeResponseVec response with
  | .ok rs =>
    match rs.getLast? with
    | some r =>
      match r.intoResult with
      | .error e => .error (.bridge e)
      | .ok _ => liftDecode (dec response)
    | none => liftDecode (dec response)
  | .error _ => liftDecode (dec response)

/-- The loop shared by every delete operation (src/bridge/mod.rs): iterate
over all outcome records in order, failing on the first error record via
`into_result()?`, and succeed when none is an error. -/
def deleteHandle : List (Response Json) → Except HueError Unit
  | [] => .ok ()
  | r :: rest =>
    match r.intoResult with
    | .error e => .error (.bridge e)
    | .ok _ => deleteHandle rest

/-- `Bridge::delete_light` (src/bridge/mod.rs, lines 184-197), from the point
the response JSON is in hand: decode as a vector of Response Records, then
check every record. -/
def delete_light (response : Json) : Except HueError Unit :=
  match decodeResponseVec response with
  | .error e => .error (.decode e)
  | .ok rs => deleteHandle rs

/-- `Bridge::delete_group` (src/bridge/mod.rs, lines 253-266). -/
def delete_group (response : Json) : Except HueError Unit :=
  match decodeResponseVec response with
  | .error e => .error (.decode e)
  | .ok rs => deleteHandle rs

/-- `Bridge::delete_scene` (src/bridge/mod.rs, lines 310-323). -/
def delete_scene (response : Json) : Except HueError Unit :=
  match decodeResponseVec response with
  | .error e => .error (.decode e)
  | .ok rs => deleteHandle rs

/-- `Bridge::delete_schedule` (src/bridge/mod.rs, lines 372-385). -/
def delete_schedule (response : Json) : Except HueError Unit :=
  match decodeResponseVec response with
  | .error e => .error (.decode e)
  | .ok rs => deleteHandle rs

/-- `Bridge::delete_resourcelink` (src/bridge/mod.rs, lines 429-442). -/
def delete_resourcelink (response : Json) : Except HueError Unit :=
  match decodeResponseVec response with
  | .error e => .error (.decode e)
  | .ok rs => deleteHandle rs

/-- `Bridge::delete_sensor` (src/bridge/mod.rs, lines 526-539). -/
def delete_sensor (response : Json) : Except HueError Unit :=
  match decodeResponseVec response with
  | .error e => .error (.decode e)
  | .ok rs => deleteHandle rs

/-- `Bridge::delete_rule` (src/bridge/mod.rs, lines 577-587). -/
def delete_rule (response : Json) : Except HueError Unit :=
  match decodeResponseVec response with
  | .error e => .error (.decode e)
  | .ok rs => deleteHandle rs

/-! ## Resourcelink references (src/resource/resourcelink.rs) -/

/-- `LinkKind` (src/resource/resourcelink.rs, lines 84-92): kind of a link. -/
inductive LinkKind where
  | Group | Light | Resourcelink | Rule | Scene | Schedule | Sensor
deriving DecidableEq, Repr

/-- `LinkKind::from_str` (src/resource/resourcelink.rs, lines 95-106). -/
def LinkKind.fromStr (value : Str) : Option LinkKind :=
  if value = "groups".toList then some .Group
  else if value = "lights".toList then some .Light
  else if value = "resourcelinks".toList then some .Resourcelink
  else if value = "rules".toList then some .Rule
  else if value = "scenes".toList then some .Scene
  else if value = "schedules".toList then some .Schedule
  else if value = "sensors".toList then some .Sensor
  else none

/-- `LinkKind::to_str` (src/resource/resourcelink.rs, lines 108-118). -/
def LinkKind.toStr : LinkKind → Str
  | .Group => "groups".toList
  | .Light => "lights".toList
  | .Resourcelink => "resourcelinks".toList
  | .Rule => "rules".toList
  | .Scene => "scenes".toList
  | .Schedule => "schedules".toList
  | .Sensor => "sensors".toList

/-- `Link` (src/resource/resourcelink.rs, lines 47-52): a reference to a
resource, with a kind and an identifier. -/
structure Link where
  kind : LinkKind
  id : Str
deriving DecidableEq, Repr

/-- Failures of the `Link` deserializer: the format-shaped message
("expected link in the format /kind/id"), or the message naming an invalid
kind segment ("invalid link type ..."). -/
inductive LinkDeError where
  | badFormat : LinkDeError
  | invalidKind (kind : Str) : LinkDeError
deriving DecidableEq, Repr

/-- Rust's `str::split` on the slash character: splits into segments keeping
empty ones; the empty string yields one empty segment. -/
def splitSlash : Str → List Str
  | [] => [[]]
  | c :: rest =>
    match splitSlash rest with
    | [] => [[c]]
    | s :: ss => if c = '/' then [] :: s :: ss else (c :: s) :: ss

/-- `Link::deserialize` (src/resource/resourcelink.rs, lines 54-70): split the
string on slashes, `pop` the last segment as the id and the one before it as
the kind, and reject unrecognized kinds. -/
def linkDeserialize (s : Str) : Except LinkDeError Link :=
  match (splitSlash s).getLast? with
  | none => .error .badFormat
  | some idStr =>
    match (splitSlash s).dropLast.getLast? with
    | none => .error .badFormat
    | some kindStr =>
      match LinkKind.fromStr kindStr with
      | none => .error (.invalidKind kindStr)
      | some k => .ok { kind := k, id := idStr }

/-- `Link::serialize` (src/resource/resourcelink.rs, lines 72-79): format the
link as slash, kind string, slash, id. -/
def linkSerialize (l : Link) : Str :=
  '/' :: l.kind.toStr ++ '/' :: l.id

/-! ## Façade request URLs (src/bridge/mod.rs) -/

/-- Modelled from the spec: `resource::RequestMethod` (not under src/): the
four HTTP verbs the transport interface consumes. -/
inductive RequestMethod where
  | Put | Post | Get | Delete
deriving DecidableEq, Repr

/-- The base API URL built by `Bridge::new` (src/bridge/mod.rs, line 63):
"http://", the address, "/api/", the username. -/
def apiUrl (ipAddress username : Str) : Str :=
  "http://".toList ++ ipAddress ++ "/api/".toList ++ username

/-- The full request URL built by `Bridge::api_request`
(src/bridge/mod.rs, line 90): the base API URL, a slash, the suffix. -/
def requestUrl (ipAddress username suffix : Str) : Str :=
  apiUrl ipAddress username ++ '/' :: suffix

/-- The GET/DELETE façade operations of `Bridge` (src/bridge/mod.rs), by
resource kind; the set/create/scan operations delegate URL building to
`Modifier::execute`/`Creator::execute` (not under src/) and are omitted. -/
inductive FacadeOp where
  | getConfig
  | getLight (id : Str)
  | getAllLights
  | getNewLights
  | deleteLightOp (id : Str)
  | getGroup (id : Str)
  | getAllGroups
  | deleteGroupOp (id : Str)
  | getScene (id : Str)
  | getAllScenes
  | deleteSceneOp (id : Str)
  | getCapabilities
  | getSchedule (id : Str)
  | getAllSchedules
  | deleteScheduleOp (id : Str)
  | getResourcelink (id : Str)
  | getAllResourcelinks
  | deleteResourcelinkOp (id : Str)
  | getSensor (id : Str)
  | getAllSensors
  | getNewSensors
  | deleteSensorOp (id : Str)
  | getRule (id : Str)
  | getAllRules
  | deleteRuleOp (id : Str)

/-- The URL suffix each façade operation passes to `api_request`, transcribed
from src/bridge/mod.rs (note line 522: `get_new_sensors` passes the literal
"senors/new"). -/
def FacadeOp.suffix : FacadeOp → Str
  | .getConfig => "config".toList
  | .getLight id => "lights/".toList ++ id
  | .getAllLights => "lights".toList
  | .getNewLights => "lights/new".toList
  | .deleteLightOp id => "lights/".toList ++ id
  | .getGroup id => "groups/".toList ++ id
  | .getAllGroups => "groups".toList
  | .deleteGroupOp id => "groups/".toList ++ id
  | .getScene id => "scenes/".toList ++ id
  | .getAllScenes => "scenes".toList
  | .deleteSceneOp id => "scenes/".toList ++ id
  | .getCapabilities => "capabilities".toList
  | .getSchedule id => "schedules/".toList ++ id
  | .getAllSchedules => "schedules".toList
  | .deleteScheduleOp id => "schedules/".toList ++ id
  | .getResourcelink id => "resourcelinks/".toList ++ id
  | .getAllResourcelinks => "resourcelinks".toList
  | .deleteResourcelinkOp id => "resourcelinks/".toList ++ id
  | .getSensor id => "sensors/".toList ++ id
  | .getAllSensors => "sensors".toList
  | .getNewSensors => "senors/new".toList
  | .deleteSensorOp id => "sensors/".toList ++ id
  | .getRule id => "rules/".toList ++ id
  | .getAllRules => "rules".toList
  | .deleteRuleOp id => "rules/".toList ++ id

/-- The HTTP verb each façade operation passes to `api_request`. -/
def FacadeOp.method : FacadeOp → RequestMethod
  | .deleteLightOp _ | .deleteGroupOp _ | .deleteSceneOp _
  | .deleteScheduleOp _ | .deleteResourcelinkOp _ | .deleteSensorOp _
  | .deleteRuleOp _ => .Delete
  | _ => .Get

/-! ## Modifier serialization engine (src/resource/light.rs) -/

/-- 8-bit unsigned attribute values (`u8`). -/
abbrev U8 := Fin 256

/-- 16-bit unsigned attribute values (`u16`). -/
abbrev U16 := Fin 65536

/-- 16-bit signed increment deltas (`i16`). -/
def I16 := { i : Int // -32768 ≤ i ∧ i < 32768 }

/-- 32-bit signed increment deltas (`i32`). -/
def I32 := { i : Int // -2147483648 ≤ i ∧ i < 2147483648 }

/-- Modelled from the spec: the per-field write mode of a state modifier
(`resource::Adjuster`, not under src/): "a tagged union over
unset / override(value) / increment(delta)", the unset case being carried by
the surrounding `Option`; the delta is signed and widened one integer rank
(the rank is fixed per field by the macro invocation in
src/resource/light.rs, lines 327-344). -/
inductive Adjuster (α : Type) (δ : Type) where
  | override (v : α) : Adjuster α δ
  | increment (d : δ) : Adjuster α δ

/-- Modelled from the spec: the alert-effect enum (`resource::Alert`, not
under src/), a plain optional flag field serialized as its lowercase name. -/
inductive Alert where
  | select | lselect | noAlert
deriving DecidableEq, Repr

/-- Modelled from the spec: the dynamic-effect enum (`resource::Effect`, not
under src/), a plain optional flag field serialized as its lowercase name. -/
inductive Effect where
  | colorloop | noEffect
deriving DecidableEq, Repr

/-- `light::StateModifier` (src/resource/light.rs, lines 275-296): a sparse
partial update of a light state; every field optional, the numeric and tuple
fields carrying an override/increment adjuster. -/
structure StateModifier where
  «on» : Option Bool := none
  brightness : Option (Adjuster U8 I16) := none
  hue : Option (Adjuster U16 I32) := none
  saturation : Option (Adjuster U8 I16) := none
  color_space_coordinates : Option (Adjuster (F32 × F32) (F32 × F32)) := none
  color_temperature : Option (Adjuster U16 I32) := none
  alert : Option Alert := none
  effect : Option Effect := none
  transition_time : Option U16 := none

/-- `StateModifier::new` (src/resource/light.rs, lines 301-304): the default
modifier with every field unset. -/
def StateModifier.new : StateModifier := {}

/-- Setter `with_on` generated by derive_setters (strip_option). -/
def StateModifier.with_on (m : StateModifier) (v : Bool) : StateModifier :=
  { m with «on» := some v }

/-- Setter `with_brightness` generated by derive_setters (strip_option). -/
def StateModifier.with_brightness (m : StateModifier)
    (v : Adjuster U8 I16) : StateModifier :=
  { m with brightness := some v }

/-- Setter `with_hue` generated by derive_setters (strip_option). -/
def StateModifier.with_hue (m : StateModifier)
    (v : Adjuster U16 I32) : StateModifier :=
  { m with hue := some v }

/-- Setter `with_saturation` generated by derive_setters (strip_option). -/
def StateModifier.with_saturation (m : StateModifier)
    (v : Adjuster U8 I16) : StateModifier :=
  { m with saturation := some v }

/-- Setter `with_color_temperature` generated by derive_setters. -/
def StateModifier.with_color_temperature (m : StateModifier)
    (v : Adjuster U16 I32) : StateModifier :=
  { m with color_temperature := some v }

/-- The value of an adjuster field when it is in override mode. -/
def overrideVal {α δ : Type} : Option (Adjuster α δ) → Option α
  | some (.override v) => some v
  | _ => none

/-- The delta of an adjuster field when it is in increment mode. -/
def incrementVal {α δ : Type} : Option (Adjuster α δ) → Option δ
  | some (.increment d) => some d
  | _ => none

/-- One output line of the `custom_serialize!` expansion: emit the key with
the encoded value when the field view is set, nothing otherwise. -/
def segOpt (key : Str) : Option Json → List (Str × Json)
  | some j => [(key, j)]
  | none => []

/-- Encode an 8-bit value. -/
def encU8 (v : U8) : Json := Json.int v.val

/-- Encode a 16-bit value. -/
def encU16 (v : U16) : Json := Json.int v.val

/-- Encode a 16-bit signed delta. -/
def encI16 (d : I16) : Json := Json.int d.val

/-- Encode a 32-bit signed delta. -/
def encI32 (d : I32) : Json := Json.int d.val

/-- Encode a 2-d coordinate as a 2-element array. -/
def encXY (p : F32 × F32) : Json := Json.arr [Json.int p.1.val, Json.int p.2.val]

/-- Encode the alert effect as its lowercase name. -/
def encAlert : Alert → Json
  | .select => Json.str "select".toList
  | .lselect => Json.str "lselect".toList
  | .noAlert => Json.str "none".toList

/-- Encode the dynamic effect as its lowercase name. -/
def encEffect : Effect → Json
  | .colorloop => Json.str "colorloop".toList
  | .noEffect => Json.str "none".toList

/-- `StateModifier::serialize` (src/resource/light.rs, lines 322-345): the
`custom_serialize!` expansion, one segment per macro line, in the declared
order on / bri / bri_inc / hue / hue_inc / sat / sat_inc / xy / xy_inc /
ct / ct_inc / alert / effect / transitiontime; override lines emit the base
key, increment lines the `_inc` key with the signed widened delta (i16 for
the 8-bit bri and sat, i32 for the 16-bit hue and ct).  The macro body
itself is not under src/ and its emit-only-set-fields behavior is modelled
from the spec. -/
def serializeStateModifier (m : StateModifier) : List (Str × Json) :=
  segOpt "on".toList (m.«on».map Json.bool)
  ++ segOpt "bri".toList ((overrideVal m.brightness).map encU8)
  ++ segOpt "bri_inc".toList ((incrementVal m.brightness).map encI16)
  ++ segOpt "hue".toList ((overrideVal m.hue).map encU16)
  ++ segOpt "hue_inc".toList ((incrementVal m.hue).map encI32)
  ++ segOpt "sat".toList ((overrideVal m.saturation).map encU8)
  ++ segOpt "sat_inc".toList ((incrementVal m.saturation).map encI16)
  ++ segOpt "xy".toList ((overrideVal m.color_space_coordinates).map encXY)
  ++ segOpt "xy_inc".toList
      ((incrementVal m.color_space_coordinates).map encXY)
  ++ segOpt "ct".toList ((overrideVal m.color_temperature).map encU16)
  ++ segOpt "ct_inc".toList ((incrementVal m.color_temperature).map encI32)
  ++ segOpt "alert".toList (m.alert.map encAlert)
  ++ segOpt "effect".toList (m.effect.map encEffect)
  ++ segOpt "transitiontime".toList (m.transition_time.map encU16)

/-- The keys emitted for a state modifier. -/
def modifierKeys (m : StateModifier) : List Str :=
  (serializeStateModifier m).map Prod.fst

/-- How many times a key is emitted for a state modifier. -/
def keyCount (m : StateModifier) (k : Str) : Nat :=
  (modifierKeys m).count k

/-- The 16-bit signed delta minus ten. -/
def minusTenI16 : I16 := ⟨-10, by omega⟩

/-! ## The Light resource and its decoder (src/resource/light.rs) -/

/-- Modelled from the spec: a timestamp parsed by the external chrono
collaborator (out of scope per the spec); its format validation is
uninterpreted, the string payload is carried through. -/
structure NaiveDateTime where
  raw : Str
deriving DecidableEq, Repr

/-- Modelled from the spec: `resource::ColorMode` (not under src/), a plain
enum decoded from its wire name. -/
inductive ColorMode where
  | colorSpaceCoordinates | colorTemperature | hueSaturation
deriving DecidableEq, Repr

/-- `SoftwareUpdateState` (src/resource/light.rs, lines 104-116),
deserialized from its lowercase name. -/
inductive SoftwareUpdateState where
  | NoUpdates | NotUpdatable | Transferring | ReadyToInstall
deriving DecidableEq, Repr

/-- `SoftwareUpdate` (src/resource/light.rs, lines 94-101). -/
structure SoftwareUpdate where
  state : SoftwareUpdateState
  last_install : Option NaiveDateTime
deriving Repr

/-- `light::State` (src/resource/light.rs, lines 58-91). -/
structure State where
  «on» : Option Bool
  brightness : Option U8
  hue : Option U16
  saturation : Option U8
  color_space_coordinates : Option (F32 × F32)
  color_temperature : Option U16
  alert : Option Alert
  effect : Option Effect
  color_mode : Option ColorMode
  reachable : Bool
deriving Repr

/-- `StartupConfig` (src/resource/light.rs, lines 133-139). -/
structure StartupConfig where
  mode : Str
  configured : Bool
deriving Repr

/-- `light::Config` (src/resource/light.rs, lines 119-130). -/
structure Config where
  arche_type : Str
  function : Str
  direction : Str
  startup : Option StartupConfig
deriving Repr

/-- `ColorTemperatureCapabilities` (src/resource/light.rs, lines 173-179). -/
structure ColorTemperatureCapabilities where
  min : Nat
  max : Nat
deriving Repr

/-- `ControlCapabilities` (src/resource/light.rs, lines 153-170). -/
structure ControlCapabilities where
  min_dimlevel : Option Nat
  max_lumen : Option Nat
  color_gamut : Option (List (F32 × F32))
  color_gamut_type : Option Str
  color_temperature : Option ColorTemperatureCapabilities
deriving Repr

/-- `StreamingCapabilities` (src/resource/light.rs, lines 182-188). -/
structure StreamingCapabilities where
  renderer : Bool
  proxy : Bool
deriving Repr

/-- `light::Capabilities` (src/resource/light.rs, lines 142-150). -/
structure Capabilities where
  certified : Bool
  control : ControlCapabilities
  streaming : StreamingCapabilities
deriving Repr

/-- `Light` (src/resource/light.rs, lines 9-46): the id field is skipped by
the deserializer and injected afterwards. -/
structure Light where
  id : Str
  name : Str
  kind : Str
  state : State
  model_id : Str
  unique_id : Str
  product_id : Option Str
  product_name : Option Str
  manufacturer_name : Option Str
  software_version : Str
  software_update : SoftwareUpdate
  config : Config
  capabilities : Capabilities
deriving Repr

/-- `Light::with_id` (src/resource/light.rs, lines 51-54): replace the id. -/
def Light.with_id (l : Light) (id : Str) : Light :=
  { l with id := id }

/-- A required struct field: missing means a decode error. -/
def reqField {α : Type} (fields : List (Str × Json)) (k : Str)
    (f : Json → Except DecodeError α) : Except DecodeError α :=
  match getField fields k with
  | none => .error (.missingField k)
  | some j => f j

/-- An `Option` struct field: missing or null means `none`. -/
def optField {α : Type} (fields : List (Str × Json)) (k : Str)
    (f : Json → Except DecodeError α) : Except DecodeError (Option α) :=
  match getField fields k with
  | none => .ok none
  | some .null => .ok none
  | some j =>
    match f j with
    | .ok v => .ok (some v)
    | .error e => .error e

/-- Decode a `u8` value: an integer in the unsigned 8-bit range. -/
def asU8 : Json → Except DecodeError U8
  | .int n =>
    if h : 0 ≤ n ∧ n < 256 then .ok ⟨n.toNat, by omega⟩
    else .error .shapeMismatch
  | _ => .error .shapeMismatch

/-- Decode a `u16` value: an integer in the unsigned 16-bit range. -/
def asU16 : Json → Except DecodeError U16
  | .int n =>
    if h : 0 ≤ n ∧ n < 65536 then .ok ⟨n.toNat, by omega⟩
    else .error .shapeMismatch
  | _ => .error .shapeMismatch

/-- Decode a `usize` value: a non-negative integer. -/
def asNat : Json → Except DecodeError Nat
  | .int n => if 0 ≤ n then .ok n.toNat else .error .shapeMismatch
  | _ => .error .shapeMismatch

/-- Decode an `f32` value (payload uninterpreted). -/
def asF32 : Json → Except DecodeError F32
  | .int n => .ok ⟨n⟩
  | _ => .error .shapeMismatch

/-- Decode an `(f32, f32)` pair from a 2-element array. -/
def asXY : Json → Except DecodeError (F32 × F32)
  | .arr [a, b] => do
    let x ← asF32 a
    let y ← asF32 b
    .ok (x, y)
  | _ => .error .shapeMismatch

/-- Modelled from the spec: decode a chrono timestamp (external collaborator;
any string payload is accepted, validation uninterpreted). -/
def asDateTime : Json → Except DecodeError NaiveDateTime
  | .str s => .ok ⟨s⟩
  | _ => .error .shapeMismatch

/-- Modelled from the spec: decode the alert enum from its lowercase name. -/
def decodeAlert : Json → Except DecodeError Alert
  | .str s =>
    if s = "select".toList then .ok .select
    else if s = "lselect".toList then .ok .lselect
    else if s = "none".toList then .ok .noAlert
    else .error .shapeMismatch
  | _ => .error .shapeMismatch

/-- Modelled from the spec: decode the effect enum from its lowercase name. -/
def decodeEffect : Json → Except DecodeError Effect
  | .str s =>
    if s = "colorloop".toList then .ok .colorloop
    else if s = "none".toList then .ok .noEffect
    else .error .shapeMismatch
  | _ => .error .shapeMismatch

/-- Modelled from the spec: decode the color-mode enum from its wire name. -/
def decodeColorMode : Json → Except DecodeError ColorMode
  | .str s =>
    if s = "xy".toList then .ok .colorSpaceCoordinates
    else if s = "ct".toList then .ok .colorTemperature
    else if s = "hs".toList then .ok .hueSaturation
    else .error .shapeMismatch
  | _ => .error .shapeMismatch

/-- Decode `SoftwareUpdateState` from its lowercase name
(serde rename_all lowercase on src/resource/light.rs, line 105). -/
def decodeSUState : Json → Except DecodeError SoftwareUpdateState
  | .str s =>
    if s = "noupdates".toList then .ok .NoUpdates
    else if s = "notupdatable".toList then .ok .NotUpdatable
    else if s = "transferring".toList then .ok .Transferring
    else if s = "readytoinstall".toList then .ok .ReadyToInstall
    else .error .shapeMismatch
  | _ => .error .shapeMismatch

/-- Derived deserializer of `light::State`: renamed fields bri/sat/xy/ct/
colormode; all fields optional except `reachable`. -/
def decodeState (j : Json) : Except DecodeError State :=
  match j with
  | .obj fs => do
    let o ← optField fs "on".toList asBool
    let bri ← optField fs "bri".toList asU8
    let hueV ← optField fs "hue".toList asU16
    let sat ← optField fs "sat".toList asU8
    let xy ← optField fs "xy".toList asXY
    let ct ← optField fs "ct".toList asU16
    let alertV ← optField fs "alert".toList decodeAlert
    let effectV ← optField fs "effect".toList decodeEffect
    let cm ← optField fs "colormode".toList decodeColorMode
    let reach ← reqField fs "reachable".toList asBool
    .ok { «on» := o, brightness := bri, hue := hueV, saturation := sat,
          color_space_coordinates := xy, color_temperature := ct,
          alert := alertV, effect := effectV, color_mode := cm,
          reachable := reach }
  | _ => .error .shapeMismatch

/-- Derived deserializer of `SoftwareUpdate`: required state, optional
lastinstall. -/
def decodeSoftwareUpdate (j : Json) : Except DecodeError SoftwareUpdate :=
  match j with
  | .obj fs => do
    let st ← reqField fs "state".toList decodeSUState
    let li ← optField fs "lastinstall".toList asDateTime
    .ok { state := st, last_install := li }
  | _ => .error .shapeMismatch

/-- Derived deserializer of `StartupConfig`. -/
def decodeStartupConfig (j : Json) : Except DecodeError StartupConfig :=
  match j with
  | .obj fs => do
    let mode ← reqField fs "mode".toList asStr
    let conf ← reqField fs "configured".toList asBool
    .ok { mode := mode, configured := conf }
  | _ => .error .shapeMismatch

/-- Derived deserializer of `light::Config`: renamed archetype field,
optional startup. -/
def decodeConfig (j : Json) : Except DecodeError Config :=
  match j with
  | .obj fs => do
    let at2 ← reqField fs "archetype".toList asStr
    let fn ← reqField fs "function".toList asStr
    let dir ← reqField fs "direction".toList asStr
    let su ← optField fs "startup".toList decodeStartupConfig
    .ok { arche_type := at2, function := fn, direction := dir, startup := su }
  | _ => .error .shapeMismatch

/-- Derived deserializer of `ColorTemperatureCapabilities`. -/
def decodeCTCaps (j : Json) : Except DecodeError ColorTemperatureCapabilities :=
  match j with
  | .obj fs => do
    let mn ← reqField fs "min".toList asNat
    let mx ← reqField fs "max".toList asNat
    .ok { min := mn, max := mx }
  | _ => .error .shapeMismatch

/-- Decode a color gamut: an array of coordinate pairs. -/
def asGamut : Json → Except DecodeError (List (F32 × F32))
  | .arr xs => xs.mapM asXY
  | _ => .error .shapeMismatch

/-- Derived deserializer of `ControlCapabilities`: every field optional,
renamed mindimlevel/maxlumen/colorgamut/colorgamuttype/ct. -/
def decodeControl (j : Json) : Except DecodeError ControlCapabilities :=
  match j with
  | .obj fs => do
    let mdl ← optField fs "mindimlevel".toList asNat
    let ml ← optField fs "maxlumen".toList asNat
    let cg ← optField fs "colorgamut".toList asGamut
    let cgt ← optField fs "colorgamuttype".toList asStr
    let ct ← optField fs "ct".toList decodeCTCaps
    .ok { min_dimlevel := mdl, max_lumen := ml, color_gamut := cg,
          color_gamut_type := cgt, color_temperature := ct }
  | _ => .error .shapeMismatch

/-- Derived deserializer of `StreamingCapabilities`. -/
def decodeStreaming (j : Json) : Except DecodeError StreamingCapabilities :=
  match j with
  | .obj fs => do
    let r ← reqField fs "renderer".toList asBool
    let p ← reqField fs "proxy".toList asBool
    .ok { renderer := r, proxy := p }
  | _ => .error .shapeMismatch

/-- Derived deserializer of `light::Capabilities`. -/
def decodeCapabilities (j : Json) : Except DecodeError Capabilities :=
  match j with
  | .obj fs => do
    let c ← reqField fs "certified".toList asBool
    let ctl ← reqField fs "control".toList decodeControl
    let st ← reqField fs "streaming".toList decodeStreaming
    .ok { certified := c, control := ctl, streaming := st }
  | _ => .error .shapeMismatch

/-- Derived deserializer of `Light` (src/resource/light.rs, lines 9-46):
the id field is `serde(skip)`, so it is never read from the body and
defaults to the empty string; renamed fields per the serde attributes. -/
def decodeLight (j : Json) : Except DecodeError Light :=
  match j with
  | .obj fs => do
    let nm ← reqField fs "name".toList asStr
    let kd ← reqField fs "type".toList asStr
    let st ← reqField fs "state".toList decodeState
    let mid ← reqField fs "modelid".toList asStr
    let uid ← reqField fs "uniqueid".toList asStr
    let pid ← optField fs "productid".toList asStr
    let pnm ← optField fs "productname".toList asStr
    let mnm ← optField fs "manufacturername".toList asStr
    let swv ← reqField fs "swversion".toList asStr
    let swu ← reqField fs "swupdate".toList decodeSoftwareUpdate
    let cfg ← reqField fs "config".toList decodeConfig
    let cap ← reqField fs "capabilities".toList decodeCapabilities
    .ok { id := [], name := nm, kind := kd, state := st, model_id := mid,
          unique_id := uid, product_id := pid, product_name := pnm,
          manufacturer_name := mnm, software_version := swv,
          software_update := swu, config := cfg, capabilities := cap }
  | _ => .error .shapeMismatch

/-- `Bridge::get_light` (src/bridge/mod.rs, lines 139-150), from the point
the response JSON is in hand: normalize, decode, then inject the requested
id via `with_id`. -/
def get_light (id : Str) (response : Json) : Except HueError Light :=
  match parse_response decodeLight response with
  | .ok light => .ok (light.with_id id)
  | .error e => .error e

/-- The decode `HashMap<String, Light>`: a JSON object whose every value
decodes as a light, keyed by the identifier strings. -/
def decodeLightMap (j : Json) : Except DecodeError (List (Str × Light)) :=
  match j with
  | .obj fs =>
    fs.mapM (fun kv =>
      match decodeLight kv.2 with
      | .ok l => .ok (kv.1, l)
      | .error e => .error e)
  | _ => .error .shapeMismatch

/-- `Bridge::get_all_lights` (src/bridge/mod.rs, lines 153-160), from the
point the response JSON is in hand: normalize, decode the identifier-to-body
mapping, then inject each key as its resource's id. -/
def get_all_lights (response : Json) : Except HueError (List Light) :=
  match parse_response decodeLightMap response with
  | .ok m => .ok (m.map (fun kv => kv.2.with_id kv.1))
  | .error e => .error e

/-- A sample light body as returned by a bridge read endpoint: note it
carries no identifier field. -/
def sampleLightJson : Json :=
  Json.obj
    [("name".toList, Json.str "Desk lamp".toList),
     ("type".toList, Json.str "Dimmable light".toList),
     ("state".toList, Json.obj
       [("on".toList, Json.bool true),
        ("bri".toList, Json.int 254),
        ("reachable".toList, Json.bool true)]),
     ("modelid".toList, Json.str "LWB010".toList),
     ("uniqueid".toList, Json.str "00:17:88:aa".toList),
     ("swversion".toList, Json.str "1.50.2".toList),
     ("swupdate".toList, Json.obj
       [("state".toList, Json.str "noupdates".toList)]),
     ("config".toList, Json.obj
       [("archetype".toList, Json.str "classicbulb".toList),
        ("function".toList, Json.str "functional".toList),
        ("direction".toList, Json.str "omnidirectional".toList)]),
     ("capabilities".toList, Json.obj
       [("certified".toList, Json.bool true),
        ("control".toList, Json.obj []),
        ("streaming".toList, Json.obj
          [("renderer".toList, Json.bool false),
           ("proxy".toList, Json.bool false)])])]

/-- The light value `sampleLightJson` decodes to (before id injection). -/
def sampleLight : Light :=
  { id := []
    name := "Desk lamp".toList
    kind := "Dimmable light".toList
    state :=
      { «on» := some true
        brightness := some 254
        hue := none
        saturation := none
        color_space_coordinates := none
        color_temperature := none
        alert := none
        effect := none
        color_mode := none
        reachable := true }
    model_id := "LWB010".toList
    unique_id := "00:17:88:aa".toList
    product_id := none
    product_name := none
    manufacturer_name := none
    software_version := "1.50.2".toList
    software_update := { state := .NoUpdates, last_install := none }
    config :=
      { arche_type := "classicbulb".toList
        function := "functional".toList
        direction := "omnidirectional".toList
        startup := none }
    capabilities :=
      { certified := true
        control :=
          { min_dimlevel := none
            max_lumen := none
            color_gamut := none
            color_gamut_type := none
            color_temperature := none }
        streaming := { renderer := false, proxy := false } } }

/-! ## Theorems -/

/-- Unfolding equation of `splitSlash` on a cons cell. -/
theorem splitSlash_cons (c : Char) (rest : Str) :
    splitSlash (c :: rest) =
      match splitSlash rest with
      | [] => [[c]]
      | s :: ss => if c = '/' then [] :: s :: ss else (c :: s) :: ss := rfl

/-- Splitting never yields an empty segment list. -/
theorem splitSlash_ne_nil (s : Str) : splitSlash s ≠ [] := by
  induction s with
  | nil => simp [splitSlash]
  | cons c rest ih =>
    rw [splitSlash_cons]
    cases h : splitSlash rest with
    | nil => simp
    | cons s ss => by_cases hc : c = '/' <;> simp [hc]

/-- A slash-free string splits into the single segment it is. -/
theorem splitSlash_noSlash (l : Str) (h : ∀ c ∈ l, c ≠ '/') :
    splitSlash l = [l] := by
  induction l with
  | nil => rfl
  | cons c rest ih =>
    have hc : c ≠ '/' := h c (by simp)
    have hr : splitSlash rest = [rest] :=
      ih (fun x hx => h x (by simp [hx]))
    rw [splitSlash_cons, hr]
    simp [hc]

/-- Splitting past a slash after a slash-free prefix peels the prefix off as
one segment. -/
theorem splitSlash_append (l r : Str) (h : ∀ c ∈ l, c ≠ '/') :
    splitSlash (l ++ '/' :: r) = l :: splitSlash r := by
  induction l with
  | nil =>
    rw [List.nil_append, splitSlash_cons]
    cases hr : splitSlash r with
    | nil => exact absurd hr (splitSlash_ne_nil r)
    | cons s ss => simp
  | cons c rest ih =>
    have hc : c ≠ '/' := h c (by simp)
    have hr := ih (fun x hx => h x (by simp [hx]))
    rw [List.cons_append, splitSlash_cons, hr]
    simp [hc]

/-- No collection-name string of `LinkKind` contains a slash. -/
theorem linkKind_toStr_noSlash (k : LinkKind) : ∀ c ∈ k.toStr, c ≠ '/' := by
  cases k <;> decide

/-- `from_str` inverts `to_str` on every kind. -/
theorem linkKind_fromStr_toStr (k : LinkKind) :
    LinkKind.fromStr k.toStr = some k := by
  cases k <;> rfl

/-- The emitted-key count of one serialization segment: its own key once if
the field view is set, and nothing otherwise. -/
theorem count_segOpt (k key : Str) (o : Option Json) :
    ((segOpt key o).map Prod.fst).count k
      = if k = key then (if o.isSome then 1 else 0) else 0 := by
  cases o with
  | none => simp [segOpt]
  | some j =>
    by_cases h : k = key
    · subst h; simp [segOpt]
    · simp [segOpt, h, Ne.symm h]

/-- C4: serializing a state modifier emits only its set fields, in the
declared field order; the all-unset modifier serializes to the empty object;
and each scalar override/increment field (brightness, hue, saturation,
color temperature) emits exactly one key — the base key with the literal
value in override mode, the `_inc` key with the signed delta in increment
mode, never both. -/
theorem c4_modifier_emits_only_set_fields (m : StateModifier) :
    serializeStateModifier StateModifier.new = []
    ∧ serializeStateModifier m =
        segOpt "on".toList (m.«on».map Json.bool)
        ++ segOpt "bri".toList ((overrideVal m.brightness).map encU8)
        ++ segOpt "bri_inc".toList ((incrementVal m.brightness).map encI16)
        ++ segOpt "hue".toList ((overrideVal m.hue).map encU16)
        ++ segOpt "hue_inc".toList ((incrementVal m.hue).map encI32)
        ++ segOpt "sat".toList ((overrideVal m.saturation).map encU8)
        ++ segOpt "sat_inc".toList ((incrementVal m.saturation).map encI16)
        ++ segOpt "xy".toList
            ((overrideVal m.color_space_coordinates).map encXY)
        ++ segOpt "xy_inc".toList
            ((incrementVal m.color_space_coordinates).map encXY)
        ++ segOpt "ct".toList ((overrideVal m.color_temperature).map encU16)
        ++ segOpt "ct_inc".toList
            ((incrementVal m.color_temperature).map encI32)
        ++ segOpt "alert".toList (m.alert.map encAlert)
        ++ segOpt "effect".toList (m.effect.map encEffect)
        ++ segOpt "transitiontime".toList (m.transition_time.map encU16)
    ∧ (∀ v, m.brightness = some (.override v) →
        keyCount m "bri".toList = 1 ∧ keyCount m "bri_inc".toList = 0
        ∧ ("bri".toList, encU8 v) ∈ serializeStateModifier m)
    ∧ (∀ d, m.brightness = some (.increment d) →
        keyCount m "bri".toList = 0 ∧ keyCount m "bri_inc".toList = 1
        ∧ ("bri_inc".toList, encI16 d) ∈ serializeStateModifier m)
    ∧ (m.brightness = none →
        keyCount m "bri".toList = 0 ∧ keyCount m "bri_inc".toList = 0)
    ∧ (∀ v, m.hue = some (.override v) →
        keyCount m "hue".toList = 1 ∧ keyCount m "hue_inc".toList = 0
        ∧ ("hue".toList, encU16 v) ∈ serializeStateModifier m)
    ∧ (∀ d, m.hue = some (.increment d) →
        keyCount m "hue".toList = 0 ∧ keyCount m "hue_inc".toList = 1
        ∧ ("hue_inc".toList, encI32 d) ∈ serializeStateModifier m)
    ∧ (m.hue = none →
        keyCount m "hue".toList = 0 ∧ keyCount m "hue_inc".toList = 0)
    ∧ (∀ v, m.saturation = some (.override v) →
        keyCount m "sat".toList = 1 ∧ keyCount m "sat_inc".toList = 0
        ∧ ("sat".toList, encU8 v) ∈ serializeStateModifier m)
    ∧ (∀ d, m.saturation = some (.increment d) →
        keyCount m "sat".toList = 0 ∧ keyCount m "sat_inc".toList = 1
        ∧ ("sat_inc".toList, encI16 d) ∈ serializeStateModifier m)
    ∧ (m.saturation = none →
        keyCount m "sat".toList = 0 ∧ keyCount m "sat_inc".toList = 0)
    ∧ (∀ v, m.color_temperature = some (.override v) →
        keyCount m "ct".toList = 1 ∧ keyCount m "ct_inc".toList = 0
        ∧ ("ct".toList, encU16 v) ∈ serializeStateModifier m)
    ∧ (∀ d, m.color_temperature = some (.increment d) →
        keyCount m "ct".toList = 0 ∧ keyCount m "ct_inc".toList = 1
        ∧ ("ct_inc".toList, encI32 d) ∈ serializeStateModifier m)
    ∧ (m.color_temperature = none →
        keyCount m "ct".toList = 0 ∧ keyCount m "ct_inc".toList = 0) := by
  refine ⟨rfl, rfl, ?_, ?_, ?_, ?_, ?_, ?_, ?_, ?_, ?_, ?_, ?_, ?_⟩ <;>
    intros <;> and_intros <;>
    first
    | (simp [keyCount, modifierKeys, serializeStateModifier, count_segOpt,
        overrideVal, incrementVal, *]; done)
    | simp [serializeStateModifier, overrideVal, incrementVal, segOpt, *]

/-- Witness for C4: a modifier with brightness overridden to 254 emits the
single key "bri". -/
theorem c4_modifier_emits_only_set_fields_witness :
    keyCount (StateModifier.new.with_brightness (.override 254))
        "bri".toList = 1
    ∧ keyCount (StateModifier.new.with_brightness (.override 254))
        "bri_inc".toList = 0
    ∧ ("bri".toList, encU8 254)
        ∈ serializeStateModifier
            (StateModifier.new.with_brightness (.override 254)) :=
  (c4_modifier_emits_only_set_fields
    (StateModifier.new.with_brightness (.override 254))).2.2.1 254 rfl

/-- C5: increments on the 8-bit brightness and saturation fields carry a
16-bit signed delta and increments on the 16-bit hue and color-temperature
fields carry a 32-bit signed delta, emitted as the signed integer itself;
in particular a brightness decrement by 10 serializes as the single pair
bri_inc maps-to -10, never as an unsigned wraparound value. -/
theorem c5_increment_widening (m : StateModifier) :
    (∀ d : I16, m.brightness = some (.increment d) →
        ("bri_inc".toList, Json.int d.val) ∈ serializeStateModifier m
        ∧ -32768 ≤ d.val ∧ d.val < 32768)
    ∧ (∀ d : I16, m.saturation = some (.increment d) →
        ("sat_inc".toList, Json.int d.val) ∈ serializeStateModifier m
        ∧ -32768 ≤ d.val ∧ d.val < 32768)
    ∧ (∀ d : I32, m.hue = some (.increment d) →
        ("hue_inc".toList, Json.int d.val) ∈ serializeStateModifier m
        ∧ -2147483648 ≤ d.val ∧ d.val < 2147483648)
    ∧ (∀ d : I32, m.color_temperature = some (.increment d) →
        ("ct_inc".toList, Json.int d.val) ∈ serializeStateModifier m
        ∧ -2147483648 ≤ d.val ∧ d.val < 2147483648)
    ∧ serializeStateModifier
        (StateModifier.new.with_brightness (.increment minusTenI16))
        = [("bri_inc".toList, Json.int (-10))] := by
  refine ⟨?_, ?_, ?_, ?_, rfl⟩ <;>
    intro d h <;>
    exact ⟨by simp [serializeStateModifier, h, overrideVal, incrementVal,
        segOpt, encI16, encI32], d.property.1, d.property.2⟩

/-- Witness for C5: the brightness decrement by 10 from the spec example. -/
theorem c5_increment_widening_witness :
    ("bri_inc".toList, Json.int (minusTenI16.val))
        ∈ serializeStateModifier
            (StateModifier.new.with_brightness (.increment minusTenI16))
    ∧ -32768 ≤ minusTenI16.val ∧ minusTenI16.val < 32768 :=
  (c5_increment_widening
    (StateModifier.new.with_brightness (.increment minusTenI16))).1
    minusTenI16 rfl

/-- Unfolding of `parse_response` once the speculative record-vector decode
is known to succeed. -/
theorem parse_response_eq_ok {T : Type} (dec : Json → Except DecodeError T)
    (p : Json) (rs : List (Response Json))
    (h : decodeResponseVec p = .ok rs) :
    parse_response dec p =
      match rs.getLast? with
      | some r =>
        match r.intoResult with
        | .error e => .error (.bridge e)
        | .ok _ => liftDecode (dec p)
      | none => liftDecode (dec p) := by
  unfold parse_response
  rw [h]

/-- C1: for a payload that decodes as an array of Response Records, the
normalizer `parse_response` fails with a bridge error exactly when the last
record is an error (errors at earlier positions are ignored); when the last
record is a success, the array is empty, or the payload is not shaped as a
record array, the original payload is deserialized into the requested
target, with a shape mismatch surfaced as a decode error distinct from a
bridge error. -/
theorem c1_parse_response_last_record {T : Type}
    (dec : Json → Except DecodeError T) (p : Json) :
    (∀ rs e, decodeResponseVec p = .ok rs →
        rs.getLast? = some (Response.error e) →
        parse_response dec p = .error (.bridge e))
    ∧ (∀ rs v, decodeResponseVec p = .ok rs →
        rs.getLast? = some (Response.success v) →
        parse_response dec p = liftDecode (dec p))
    ∧ (decodeResponseVec p = .ok [] →
        parse_response dec p = liftDecode (dec p))
    ∧ (∀ err, decodeResponseVec p = .error err →
        parse_response dec p = liftDecode (dec p)) := by
  refine ⟨?_, ?_, ?_, ?_⟩
  · intro rs e h1 h2
    rw [parse_response_eq_ok dec p rs h1, h2]
    rfl
  · intro rs v h1 h2
    rw [parse_response_eq_ok dec p rs h1, h2]
    rfl
  · intro h1
    rw [parse_response_eq_ok dec p [] h1]
    rfl
  · intro err h1
    unfold parse_response
    rw [h1]

/-- Witness for C1: with a two-record array whose first record is a success
and whose last record is an error of type 3, the normalizer fails with that
bridge error; with the records swapped (early error, last success), the
original payload is re-decoded instead. -/
theorem c1_parse_response_last_record_witness :
    parse_response (fun j => Except.ok j)
      (Json.arr
        [Json.obj [("success".toList, Json.str "ok".toList)],
         Json.obj [("error".toList, Json.obj
           [("type".toList, Json.int 3),
            ("address".toList, Json.str "/lights/1".toList),
            ("description".toList, Json.str "not found".toList)])]])
      = .error (.bridge ⟨3, "/lights/1".toList, "not found".toList⟩)
    ∧ parse_response (fun j => Except.ok j)
      (Json.arr
        [Json.obj [("error".toList, Json.obj
           [("type".toList, Json.int 3),
            ("address".toList, Json.str "/lights/1".toList),
            ("description".toList, Json.str "not found".toList)])],
         Json.obj [("success".toList, Json.str "ok".toList)]])
      = .ok (Json.arr
        [Json.obj [("error".toList, Json.obj
           [("type".toList, Json.int 3),
            ("address".toList, Json.str "/lights/1".toList),
            ("description".toList, Json.str "not found".toList)])],
         Json.obj [("success".toList, Json.str "ok".toList)]]) := by
  constructor
  · exact (c1_parse_response_last_record (fun j => Except.ok j) _).1
      [Response.success (Json.str "ok".toList),
       Response.error ⟨3, "/lights/1".toList, "not found".toList⟩]
      ⟨3, "/lights/1".toList, "not found".toList⟩ (by rfl) (by rfl)
  · exact (c1_parse_response_last_record (fun j => Except.ok j) _).2.1
      [Response.error ⟨3, "/lights/1".toList, "not found".toList⟩,
       Response.success (Json.str "ok".toList)]
      (Json.str "ok".toList) (by rfl) (by rfl)

/-- C3 (code bug): every request URL does follow the fixed scheme
http, address, /api/, username, /, suffix — but the claim that the
`get_new_sensors` suffix is the sensors collection followed by "/new" fails:
src/bridge/mod.rs line 522 passes the misspelled literal "senors/new", while
the parallel `get_new_lights` correctly passes the lights collection followed
by "/new". -/
theorem c3_get_new_sensors_url_typo :
    (∀ ip user op, requestUrl ip user (FacadeOp.suffix op)
        = "http://".toList ++ ip ++ "/api/".toList ++ user
            ++ '/' :: FacadeOp.suffix op)
    ∧ FacadeOp.suffix .getNewSensors = "senors/new".toList
    ∧ FacadeOp.suffix .getNewSensors ≠ LinkKind.Sensor.toStr ++ "/new".toList
    ∧ FacadeOp.suffix .getNewLights = LinkKind.Light.toStr ++ "/new".toList :=
  ⟨fun _ _ _ => rfl, rfl, by decide, by decide⟩

/-- Success on a list of records means no record at all is an error. -/
theorem deleteHandle_ok_iff (rs : List (Response Json)) :
    deleteHandle rs = .ok () ↔ ∀ r ∈ rs, ∀ e, r ≠ Response.error e := by
  induction rs with
  | nil => simp [deleteHandle]
  | cons r rest ih =>
    cases r with
    | success v =>
      simp only [deleteHandle, Response.intoResult, List.mem_cons]
      constructor
      · intro h x hx e
        rcases hx with hx | hx
        · subst hx; exact fun hc => Response.noConfusion hc
        · exact (ih.mp h) x hx e
      · intro h
        exact ih.mpr (fun x hx e => h x (Or.inr hx) e)
    | error e =>
      simp only [deleteHandle, Response.intoResult]
      constructor
      · intro h; exact absurd h (by simp)
      · intro h
        exact absurd rfl (h (Response.error e) (by simp) e)

/-- The delete loop fails with the bridge error of the first error record. -/
theorem deleteHandle_first_error (pre : List (Response Json))
    (e : BridgeError) (post : List (Response Json))
    (hpre : ∀ r ∈ pre, ∀ e2, r ≠ Response.error e2) :
    deleteHandle (pre ++ Response.error e :: post) = .error (.bridge e) := by
  induction pre with
  | nil => rfl
  | cons r rest ih =>
    cases r with
    | success v =>
      rw [List.cons_append,
        show deleteHandle (Response.success v
            :: (rest ++ Response.error e :: post))
          = deleteHandle (rest ++ Response.error e :: post) from rfl]
      exact ih (fun x hx e2 => hpre x (by simp [hx]) e2)
    | error e2 =>
      exact absurd rfl (hpre (Response.error e2) (by simp) e2)

/-- C2: every delete operation, given a decoded array of outcome records,
returns the bridge error of the first error record in array order whenever
one exists (even after earlier successes), and succeeds exactly when no
record is an error; all seven delete operations reduce to the same
record-checking loop. -/
theorem c2_delete_checks_all_records :
    (∀ rs : List (Response Json),
        deleteHandle rs = .ok () ↔ ∀ r ∈ rs, ∀ e, r ≠ Response.error e)
    ∧ (∀ (pre : List (Response Json)) (e : BridgeError) post,
        (∀ r ∈ pre, ∀ e2, r ≠ Response.error e2) →
        deleteHandle (pre ++ Response.error e :: post)
          = .error (.bridge e))
    ∧ (∀ p rs, decodeResponseVec p = .ok rs →
        delete_light p = deleteHandle rs
        ∧ delete_group p = deleteHandle rs
        ∧ delete_scene p = deleteHandle rs
        ∧ delete_schedule p = deleteHandle rs
        ∧ delete_resourcelink p = deleteHandle rs
        ∧ delete_sensor p = deleteHandle rs
        ∧ delete_rule p = deleteHandle rs) := by
  refine ⟨deleteHandle_ok_iff, deleteHandle_first_error, ?_⟩
  intro p rs h
  refine ⟨?_, ?_, ?_, ?_, ?_, ?_, ?_⟩ <;>
    first
    | (unfold delete_light; rw [h])
    | (unfold delete_group; rw [h])
    | (unfold delete_scene; rw [h])
    | (unfold delete_schedule; rw [h])
    | (unfold delete_resourcelink; rw [h])
    | (unfold delete_sensor; rw [h])
    | (unfold delete_rule; rw [h])

/-- Witness for C2: the spec examples — a lone success record deletes
successfully, and a success followed by an error of type 3 fails with that
bridge error even though the first record was a success. -/
theorem c2_delete_checks_all_records_witness :
    deleteHandle
      [Response.success (Json.obj
        [("/lights/1".toList, Json.str "deleted".toList)])] = .ok ()
    ∧ deleteHandle
      [Response.success (Json.obj
        [("/lights/1".toList, Json.str "deleted".toList)]),
       Response.error ⟨3, "/lights/1".toList, "not found".toList⟩]
      = .error (.bridge ⟨3, "/lights/1".toList, "not found".toList⟩) := by
  constructor
  · exact (c2_delete_checks_all_records.1 _).mpr
      (by
        intro r hr e
        rw [List.mem_singleton] at hr
        subst hr
        exact fun hc => Response.noConfusion hc)
  · exact c2_delete_checks_all_records.2.1
      [Response.success (Json.obj
        [("/lights/1".toList, Json.str "deleted".toList)])]
      ⟨3, "/lights/1".toList, "not found".toList⟩ []
      (by
        intro r hr e2
        rw [List.mem_singleton] at hr
        subst hr
        exact fun hc => Response.noConfusion hc)

/-- Inversion of a successful `Except` bind. -/
theorem bind_eq_ok {ε α β : Type} {e : Except ε α} {f : α → Except ε β}
    {b : β} (h : e >>= f = .ok b) : ∃ a, e = .ok a ∧ f a = .ok b := by
  cases e with
  | ok a => exact ⟨a, rfl, h⟩
  | error err => exact absurd h (by simp [Bind.bind, Except.bind])

/-- A lifted decode result succeeds exactly when the decode did. -/
theorem liftDecode_eq_ok {α : Type} (x : Except DecodeError α) (v : α) :
    liftDecode x = .ok v ↔ x = .ok v := by
  cases x <;> simp [liftDecode]

/-- A successful normalizer run decodes the original payload. -/
theorem parse_response_ok_inv {T : Type} (dec : Json → Except DecodeError T)
    (p : Json) (v : T) (h : parse_response dec p = .ok v) : dec p = .ok v := by
  cases hd : decodeResponseVec p with
  | error e =>
    unfold parse_response at h
    rw [hd] at h
    exact (liftDecode_eq_ok _ _).mp h
  | ok rs =>
    rw [parse_response_eq_ok dec p rs hd] at h
    cases hl : rs.getLast? with
    | none =>
      rw [hl] at h
      exact (liftDecode_eq_ok _ _).mp h
    | some r =>
      rw [hl] at h
      cases r with
      | success w => exact (liftDecode_eq_ok _ _).mp h
      | error e => exact nomatch h

/-- C6: the Light decoder never reads an identifier from the body (the
skipped id field always decodes to the empty string), and a successful
`get_light` call always returns a light whose id is exactly the requested
id, regardless of the body contents. -/
theorem c6_get_one_injects_requested_id :
    (∀ raw l, decodeLight raw = .ok l → l.id = [])
    ∧ (∀ (s : Str) raw l, get_light s raw = .ok l → l.id = s) := by
  constructor
  · intro raw l h
    cases raw
    case obj fs =>
      simp only [decodeLight] at h
      obtain ⟨nm, h1, h⟩ := bind_eq_ok h
      obtain ⟨kd, h2, h⟩ := bind_eq_ok h
      obtain ⟨st, h3, h⟩ := bind_eq_ok h
      obtain ⟨mid, h4, h⟩ := bind_eq_ok h
      obtain ⟨uid, h5, h⟩ := bind_eq_ok h
      obtain ⟨pid, h6, h⟩ := bind_eq_ok h
      obtain ⟨pnm, h7, h⟩ := bind_eq_ok h
      obtain ⟨mnm, h8, h⟩ := bind_eq_ok h
      obtain ⟨swv, h9, h⟩ := bind_eq_ok h
      obtain ⟨swu, h10, h⟩ := bind_eq_ok h
      obtain ⟨cfg, h11, h⟩ := bind_eq_ok h
      obtain ⟨cap, h12, h⟩ := bind_eq_ok h
      injection h with h
      subst h
      rfl
    all_goals simp [decodeLight] at h
  · intro s raw l h
    unfold get_light at h
    cases hp : parse_response decodeLight raw with
    | ok light =>
      rw [hp] at h
      injection h with h
      subst h
      rfl
    | error e =>
      rw [hp] at h
      exact nomatch h

/-- Witness for C6: the sample light body carries no identifier, yet the
returned light's id is the requested "7". -/
theorem c6_get_one_injects_requested_id_witness :
    get_light "7".toList sampleLightJson
      = .ok (sampleLight.with_id "7".toList)
    ∧ (sampleLight.with_id "7".toList).id = "7".toList :=
  ⟨rfl, c6_get_one_injects_requested_id.2 "7".toList sampleLightJson
    (sampleLight.with_id "7".toList) rfl⟩

/-- C7: when a get-all response decodes as a mapping from identifier strings
to light bodies, the result has exactly one element per map entry and each
element's id equals the map key of the entry it was decoded from. -/
theorem c7_get_all_injects_keys (raw : Json)
    (entries : List (Str × Light)) (lights : List Light)
    (h1 : decodeLightMap raw = .ok entries)
    (h2 : get_all_lights raw = .ok lights) :
    lights = entries.map (fun kv => kv.2.with_id kv.1)
    ∧ lights.map Light.id = entries.map Prod.fst
    ∧ lights.length = entries.length := by
  unfold get_all_lights at h2
  cases hp : parse_response decodeLightMap raw with
  | error e =>
    rw [hp] at h2
    exact nomatch h2
  | ok m =>
    rw [hp] at h2
    injection h2 with h2
    have hm : m = entries := by
      have hv := parse_response_ok_inv decodeLightMap raw m hp
      rw [h1] at hv
      injection hv with hv
      exact hv.symm
    subst hm
    subst h2
    refine ⟨rfl, ?_, ?_⟩
    · simp [List.map_map, Light.with_id, Function.comp]
    · simp

/-- Witness for C7: the two-entry get-all body from the spec example yields
two lights with ids "1" and "2". -/
theorem c7_get_all_injects_keys_witness :
    ([sampleLight.with_id "1".toList, sampleLight.with_id "2".toList]
        : List Light)
      = [("1".toList, sampleLight), ("2".toList, sampleLight)].map
          (fun kv => kv.2.with_id kv.1)
    ∧ ([sampleLight.with_id "1".toList, sampleLight.with_id "2".toList]
        : List Light).map Light.id
      = [("1".toList, sampleLight), ("2".toList, sampleLight)].map Prod.fst
    ∧ ([sampleLight.with_id "1".toList, sampleLight.with_id "2".toList]
        : List Light).length
      = [("1".toList, sampleLight), ("2".toList, sampleLight)].length :=
  c7_get_all_injects_keys
    (Json.obj [("1".toList, sampleLightJson), ("2".toList, sampleLightJson)])
    [("1".toList, sampleLight), ("2".toList, sampleLight)]
    [sampleLight.with_id "1".toList, sampleLight.with_id "2".toList]
    rfl rfl

/-- C8: the resourcelink reference string "/lights/3" deserializes to a Link
with kind Light and id "3", and "/unknowns/3" deserializes to a decode error
naming the invalid kind segment "unknowns" (no panic, no default kind). -/
theorem c8_link_decode_examples :
    linkDeserialize "/lights/3".toList = .ok ⟨.Light, "3".toList⟩
    ∧ linkDeserialize "/unknowns/3".toList
        = .error (.invalidKind "unknowns".toList) :=
  ⟨rfl, rfl⟩

/-- C9: for every Link whose id contains no slash character, serializing and
then deserializing yields the original Link, kind and id both preserved. -/
theorem c9_link_roundtrip (l : Link) (h : ∀ c ∈ l.id, c ≠ '/') :
    linkDeserialize (linkSerialize l) = .ok l := by
  have hsplit : splitSlash (linkSerialize l) = [[], l.kind.toStr, l.id] := by
    show splitSlash ('/' :: (l.kind.toStr ++ '/' :: l.id)) = _
    rw [splitSlash_cons,
      splitSlash_append l.kind.toStr _ (linkKind_toStr_noSlash l.kind),
      splitSlash_noSlash l.id h]
    simp
  have h1 : ([[], l.kind.toStr, l.id] : List Str).getLast? = some l.id := rfl
  have h2 : ([[], l.kind.toStr, l.id] : List Str).dropLast.getLast?
      = some l.kind.toStr := rfl
  unfold linkDeserialize
  rw [hsplit]
  simp only [h1, h2, linkKind_fromStr_toStr]

/-- Witness for C9 at the concrete link kind Light, id "3". -/
theorem c9_link_roundtrip_witness :
    linkDeserialize (linkSerialize ⟨LinkKind.Light, "3".toList⟩)
      = .ok ⟨LinkKind.Light, "3".toList⟩ :=
  c9_link_roundtrip ⟨LinkKind.Light, "3".toList⟩ (by decide)

/-- C10: the Link deserializer accepts any string whose last two
slash-separated segments are a recognized collection name followed by an
identifier, ignoring all earlier segments; in particular "lights/3" (no
leading slash) and "foo/bar/lights/3" decode to kind Light, id "3", and
"/lights/" decodes to kind Light with the empty id. -/
theorem c10_link_decode_lenient :
    (∀ (s : Str) (rest : List Str) (ks id : Str) (k : LinkKind),
        splitSlash s = rest ++ [ks, id] → LinkKind.fromStr ks = some k →
        linkDeserialize s = .ok ⟨k, id⟩)
    ∧ linkDeserialize "lights/3".toList = .ok ⟨.Light, "3".toList⟩
    ∧ linkDeserialize "foo/bar/lights/3".toList = .ok ⟨.Light, "3".toList⟩
    ∧ linkDeserialize "/lights/".toList = .ok ⟨.Light, []⟩ := by
  refine ⟨?_, rfl, rfl, rfl⟩
  intro s rest ks id k hsplit hkind
  have h2 : rest ++ [ks, id] = (rest ++ [ks]) ++ [id] := by simp
  unfold linkDeserialize
  rw [hsplit, h2]
  simp only [List.getLast?_concat, List.dropLast_concat, hkind]

/-- Witness for C10 at the concrete input "foo/bar/lights/3". -/
theorem c10_link_decode_lenient_witness :
    linkDeserialize "foo/bar/lights/3".toList
      = .ok ⟨LinkKind.Light, "3".toList⟩ :=
  c10_link_decode_lenient.1 "foo/bar/lights/3".toList
    ["foo".toList, "bar".toList] "lights".toList "3".toList LinkKind.Light
    (by rfl) (by rfl)

end Huelib
